import Mathlib

/-!
Verification of the run_metrics.py experiment harness: data model, bounded run
execution, batch control flow, selection layer and export sink, shallowly
embedded from src/run_metrics.py. Times are modelled as abstract clock ticks
(Nat); the search algorithms and problem factories are opaque collaborators,
represented by the observable behavior of one bounded call.
-/

namespace RunMetrics

/-- The three statistics counters owned by the instrumented problem wrapper
(PrintableProblem, inheriting InstrumentedProblem): successor expansions,
goal tests, and distinct states produced. -/
structure Counters where
  succs : Nat
  goal_tests : Nat
  states : Nat
deriving Repr, DecidableEq

/-- One result record as built by add_results in the source: the dictionary
keys problem, search_algorithm, solution_found, expansions, goal_tests,
new_nodes, elapsed_time, num_actions. Metric fields are optional (None in
the failure branch). -/
structure RunResult where
  problem : String
  search_algorithm : String
  solution_found : Bool
  expansions : Option Nat
  goal_tests : Option Nat
  new_nodes : Option Nat
  elapsed_time : Option Nat
  num_actions : Option Nat
deriving Repr, DecidableEq

/-- The problem registry of the source (names only; the factories
air_cargo_p1..p3 are opaque). -/
def PROBLEMS : List String :=
  ["Air Cargo Problem 1", "Air Cargo Problem 2", "Air Cargo Problem 3"]

/-- The search registry of the source: search function name and heuristic
attribute name, the empty string standing for no heuristic, in source order.
The algorithm callables are opaque. -/
def SEARCHES : List (String × String) :=
  [("breadth_first_search", ""),
   ("breadth_first_tree_search", ""),
   ("depth_first_graph_search", ""),
   ("depth_limited_search", ""),
   ("uniform_cost_search", ""),
   ("recursive_best_first_search", "h_1"),
   ("greedy_best_first_graph_search", "h_1"),
   ("astar_search", "h_1"),
   ("astar_search", "h_ignore_preconditions"),
   ("astar_search", "h_pg_levelsum")]

/-- TIME_LIMIT = 600 from the source, in clock ticks (seconds). -/
def TIME_LIMIT : Nat := 600

/-- add_results from the source: appends exactly one record to the collector.
The failure branch stores None in every metric field; the success branch
copies the three wrapper counters, the elapsed time, and the length of the
solution. The source dereferences ip and node unconditionally in the success
branch and is only called with them present there; Option.map renders that
access. -/
def add_results (RESULTS : List RunResult) (problem_name search_name : String)
    (failure : Bool) (ip : Option Counters) (node_solution_len : Option Nat)
    (elapsed_time : Option Nat) : List RunResult :=
  if failure then
    RESULTS ++ [⟨problem_name, search_name, false, none, none, none, none, none⟩]
  else
    RESULTS ++ [⟨problem_name, search_name, true,
                 ip.map Counters.succs, ip.map Counters.goal_tests,
                 ip.map Counters.states, elapsed_time, node_solution_len⟩]

/-- One cell of the exported tabular file: a string cell, a numeric cell, or
an empty cell (a None value). -/
inductive Cell where
  | str (s : String)
  | num (n : Nat)
  | empty
deriving Repr, DecidableEq

/-- An optional metric rendered as a cell: None becomes the empty cell. -/
def optCell : Option Nat → Cell
  | none => Cell.empty
  | some n => Cell.num n

/-- The fixed column order of export_results_to_csv in the source.
solution_found is not among the exported columns. -/
def column_order : List String :=
  ["problem", "search_algorithm", "expansions", "goal_tests", "new_nodes",
   "elapsed_time", "num_actions"]

/-- The cell a record contributes under a given column name. -/
def cellOf (r : RunResult) : String → Cell
  | "problem" => Cell.str r.problem
  | "search_algorithm" => Cell.str r.search_algorithm
  | "expansions" => optCell r.expansions
  | "goal_tests" => optCell r.goal_tests
  | "new_nodes" => optCell r.new_nodes
  | "elapsed_time" => optCell r.elapsed_time
  | "num_actions" => optCell r.num_actions
  | _ => Cell.empty

/-- One exported row: the record projected through the fixed column order. -/
def recordRow (r : RunResult) : List Cell :=
  column_order.map (cellOf r)

/-- export_results_to_csv from the source: the collected records are reordered
to column_order and written as one row per record, in collector order
(index=False drops the frame index, adding no extra column). -/
def export_results_to_csv (RESULTS : List RunResult) : List (List Cell) :=
  RESULTS.map recordRow

/-- The output file name from the source: RUNTIME = datetime.datetime.now()
is captured once at module load (process start) and the name embeds
int(RUNTIME.timestamp()), the timestamp floored to whole seconds. The
runtime is modelled in milliseconds. -/
def export_filename (runtime_ms : Nat) : String :=
  "cargo_planning_search_metrics_" ++ toString (runtime_ms / 1000) ++ ".csv"

/-- Where a KeyboardInterrupt delivered during the bounded call came from:
the timer thread (quit_function calls interrupt_main) or the operator at the
keyboard. The exception object is the same in both cases. -/
inductive InterruptSource where
  | timerSignal
  | operatorSignal
deriving Repr, DecidableEq

/-- The observable outcome of the opaque bounded call search_function(ip) or
search_function(ip, parameter): return of a solution node (with the final
wrapper counters, the solution length, and the elapsed ticks recorded for
it), unwinding with KeyboardInterrupt, or some other exception. -/
inductive SearchOutcome where
  | normal (counters : Counters) (solutionLength : Nat) (elapsed : Nat)
  | interrupted (src : InterruptSource)
  | raised (msg : String)
deriving Repr, DecidableEq

/-- run_search from the source, at outcome granularity. Both branches
(parameter and no parameter) have the same shape: the bounded call runs
inside try/except KeyboardInterrupt, with a finally that cancels the timer.
On normal return one success record is appended; on KeyboardInterrupt,
whatever its source, one failure record is appended; any other exception
propagates (the except clause names only KeyboardInterrupt) and nothing is
appended. -/
def run_search (RESULTS : List RunResult) (problem_name search_name : String)
    (outcome : SearchOutcome) : Except String (List RunResult) :=
  match outcome with
  | SearchOutcome.normal counters len elapsed =>
      Except.ok (add_results RESULTS problem_name search_name false
        (some counters) (some len) (some elapsed))
  | SearchOutcome.interrupted _ =>
      Except.ok (add_results RESULTS problem_name search_name true none none none)
  | SearchOutcome.raised msg => Except.error msg

/-- The record run_search appends for a run that is not solved. -/
def unsolvedRecord (problem_name search_name : String) : RunResult :=
  ⟨problem_name, search_name, false, none, none, none, none, none⟩

/-- What the opaque bounded call would do in one run, absent interference from
outside that run: the ticks it needs to return, the counters the wrapper has
accumulated at return, the solution length, whether the operator presses
Ctrl-C during the call (before the deadline), and whether the call instead
raises some other exception (before the deadline). -/
structure RunBehavior where
  ticks : Nat
  counters : Counters
  solutionLength : Nat
  operatorInterrupt : Bool
  raises : Option String
deriving Repr, DecidableEq

/-- Fate of the threading.Timer armed for one run: cancelled while still
pending (the finally clause ran before the deadline), or fired at the
deadline, its callback raising KeyboardInterrupt in the main thread via
interrupt_main. A Timer runs its callback at most once. -/
inductive TimerFate where
  | cancelledPending
  | firedDelivered
deriving Repr, DecidableEq

/-- One bounded run at timer granularity, from the source: run_search arms a
fresh Timer with deadline TIME_LIMIT, then runs the bounded call in the main
thread; the finally cancels the timer on every path that leaves the call
before the deadline (normal return, operator Ctrl-C, other exception). The
timer fires only when nothing left the call by the deadline, and at that
moment the main thread is still inside the bounded call, so the
KeyboardInterrupt raised by interrupt_main is delivered and consumed within
this very run; hence the pending-after flag (an interrupt from this timer
still undelivered when run_search returns) is computed, not stipulated.
Returns (outcome of the call, fate of the timer, pending-after flag). -/
def timerRun (b : RunBehavior) : SearchOutcome × TimerFate × Bool :=
  let exitsBeforeDeadline : Bool :=
    b.operatorInterrupt || b.raises.isSome || decide (b.ticks ≤ TIME_LIMIT)
  let fired : Bool := !exitsBeforeDeadline
  let deliveredWithinRun : Bool := fired
  let pendingAfter : Bool := fired && !deliveredWithinRun
  let outcome : SearchOutcome :=
    if b.operatorInterrupt then SearchOutcome.interrupted InterruptSource.operatorSignal
    else
      match b.raises with
      | some msg => SearchOutcome.raised msg
      | none =>
          if TIME_LIMIT < b.ticks then SearchOutcome.interrupted InterruptSource.timerSignal
          else SearchOutcome.normal b.counters b.solutionLength b.ticks
  (outcome, if fired then TimerFate.firedDelivered else TimerFate.cancelledPending,
   pendingAfter)

/-- The outcome of the bounded call for a run with the given behavior. -/
def outcomeOf (b : RunBehavior) : SearchOutcome :=
  (timerRun b).1

/-- The single record run_search appends for a run with behavior b when the
call does not raise a foreign exception: the success record if the call
returned normally, the unsolved record if it was interrupted. -/
def recordOf (problem_name search_name : String) (b : RunBehavior) : RunResult :=
  match outcomeOf b with
  | SearchOutcome.normal c len e =>
      ⟨problem_name, search_name, true, some c.succs, some c.goal_tests,
       some c.states, some e, some len⟩
  | _ => unsolvedRecord problem_name search_name

/-- State of the batch loop: the process-wide RESULTS collector, plus whether
a KeyboardInterrupt raised by some timer is still undelivered in the main
thread (the channel through which a cancellation could leak between runs). -/
structure BatchState where
  results : List RunResult
  pendingInterrupt : Bool
deriving Repr, DecidableEq

/-- One iteration of the batch loop around run_search, at timer granularity.
If an interrupt leaked from an earlier run were pending when the run starts,
it would be delivered inside the try and caught by the except, recording an
unsolved row for this tuple and consuming the interrupt. Otherwise the run
proceeds per timerRun; a foreign exception propagates out of the loop with
no row for the in-flight tuple. -/
def runStep (problem_name search_name : String) (b : RunBehavior)
    (st : BatchState) : Except String BatchState :=
  if st.pendingInterrupt then
    Except.ok ⟨add_results st.results problem_name search_name true none none none, false⟩
  else
    match timerRun b with
    | (outcome, _, pendingAfter) =>
        match run_search st.results problem_name search_name outcome with
        | Except.ok rs => Except.ok ⟨rs, pendingAfter⟩
        | Except.error msg => Except.error msg

/-- The inner loop of main over the selected searches, for one problem: for
each (search name, heuristic name) entry, the factory result is wrapped and
run_search is called; env gives the behavior of the opaque call for each
(problem, search entry) pair. -/
def innerLoop (env : String → String × String → RunBehavior) (problem_name : String)
    (searches : List (String × String)) (st : BatchState) : Except String BatchState :=
  match searches with
  | [] => Except.ok st
  | s :: rest => do
      let st1 ← runStep problem_name s.1 (env problem_name s) st
      innerLoop env problem_name rest st1

/-- The outer loop of main over the selected problems. -/
def batchLoop (env : String → String × String → RunBehavior)
    (problems : List String) (searches : List (String × String))
    (st : BatchState) : Except String BatchState :=
  match problems with
  | [] => Except.ok st
  | p :: rest => do
      let st1 ← innerLoop env p searches st
      batchLoop env rest searches st1

/-- Python list indexing semantics: a nonnegative index reads from the front,
a negative index within range reads from the end, and anything outside the
interval from -len to len-1 raises IndexError (here: none). -/
def pyIndex (l : List α) (j : Int) : Option α :=
  if 0 ≤ j then l.get? j.toNat
  else if (-j).toNat ≤ l.length then l.get? (l.length - (-j).toNat)
  else none

/-- The selection comprehensions in main, REG[i-1] for i in choices: the whole
list is built before the batch loop starts, so an out-of-range index raises
IndexError before any run executes. -/
def selectAll (l : List α) (choices : List Int) : Except String (List α) :=
  match choices with
  | [] => Except.ok []
  | i :: rest =>
      match pyIndex l (i - 1) with
      | some x => do
          let xs ← selectAll l rest
          Except.ok (x :: xs)
      | none => Except.error "IndexError"

/-- main from the source: build the selected problem and search lists (this
is where an out-of-range index faults, before any run), run the nested batch
loop starting from the empty collector with no pending interrupt, and return
the collected records; export_results_to_csv is applied to exactly this list
once, at batch end. -/
def main (env : String → String × String → RunBehavior)
    (p_choices s_choices : List Int) : Except String (List RunResult) := do
  let problems ← selectAll PROBLEMS p_choices
  let searches ← selectAll SEARCHES s_choices
  let st ← batchLoop env problems searches ⟨[], false⟩
  Except.ok st.results

/-- manual from the source: prints the menus, reads two space-separated index
lists, and calls main on them directly, with no deduplication, no sorting
and no range check of its own. -/
def manual_main (env : String → String × String → RunBehavior)
    (p_entered s_entered : List Int) : Except String (List RunResult) :=
  main env p_entered s_entered

/-- The direct-mode normalization at the entry point:
list(sorted(set(xs))). -/
def sorted_set (xs : List Int) : List Int :=
  List.insertionSort (fun a b => a ≤ b) xs.dedup

/-- The argparse gate on the direct-mode flags: choices=range(1, len+1), so
every supplied index must lie in the 1-based registry range or the
invocation is rejected before main ever runs. -/
def argparse_ok (len : Nat) (xs : List Int) : Bool :=
  xs.all (fun i => decide (1 ≤ i) && decide (i ≤ (len : Int)))

/-- The direct-mode branch of the entry point:
main(list(sorted(set(args.problems))), list(sorted(set(args.searches)))). -/
def direct_invoke (env : String → String × String → RunBehavior)
    (problems searches : List Int) : Except String (List RunResult) :=
  main env (sorted_set problems) (sorted_set searches)

/-- The two problem objects alive during one run: the instance returned by
the factory (_p in main) and the instrumented wrapper built later inside
run_search (ip = PrintableProblem(_p)). -/
inductive InstanceTag where
  | rawInstance
  | wrappedInstance
deriving Repr, DecidableEq

/-- A heuristic callable as produced by getattr: the object it was resolved
on and the attribute name. -/
structure HeuristicRef where
  boundTo : InstanceTag
  attr : String
deriving Repr, DecidableEq

/-- The heuristic resolution in main, _h = None if not h else getattr(_p, h):
_p is the undecorated factory result, and the instrumented wrapper does not
exist yet at this line (run_search creates it later). -/
def resolve_h (h : String) : Option HeuristicRef :=
  if h = "" then none else some ⟨InstanceTag.rawInstance, h⟩

/-- The per-run timeline of run_search at clock granularity, in source line
order: start = timer() is read first; then the PrintableProblem wrapper is
constructed; then the Timer is constructed and started; then the bounded
call runs; the finally cancels the timer; end = timer() is read after the
finally. Each phase consumes some number of ticks. -/
structure RunCosts where
  wrapTicks : Nat
  timerSetupTicks : Nat
  searchTicks : Nat
  cancelTicks : Nat
deriving Repr, DecidableEq

/-- The two clock readings of run_search on the success path, threading a
monotone clock through the phases: returns (start, end). -/
def runTimeline (c : RunCosts) (clock0 : Nat) : Nat × Nat :=
  let start := clock0
  let afterWrap := start + c.wrapTicks
  let afterTimerSetup := afterWrap + c.timerSetupTicks
  let afterSearch := afterTimerSetup + c.searchTicks
  let afterCancel := afterSearch + c.cancelTicks
  (start, afterCancel)

/-- The value end - start that run_search records as elapsed_time. -/
def run_search_elapsed (c : RunCosts) (clock0 : Nat) : Nat :=
  (runTimeline c clock0).2 - (runTimeline c clock0).1

/-- A concrete behavior that solves quickly, for instantiating theorems. -/
def fastBehavior : RunBehavior := ⟨1, ⟨10, 5, 20⟩, 6, false, none⟩

/-- A concrete behavior that exceeds the deadline. -/
def timeoutBehavior : RunBehavior := ⟨TIME_LIMIT + 1, ⟨0, 0, 0⟩, 0, false, none⟩

/-- An environment in which every bounded call solves quickly. -/
def constEnv : String → String × String → RunBehavior := fun _ _ => fastBehavior

/-- An environment in which breadth_first_search times out and every other
search solves quickly: a timed-out run immediately followed by fast ones. -/
def mixedEnv : String → String × String → RunBehavior :=
  fun _ s => if s.1 = "breadth_first_search" then timeoutBehavior else fastBehavior

/-- An environment in which every bounded call exceeds the deadline. -/
def timeoutEnv : String → String × String → RunBehavior := fun _ _ => timeoutBehavior

/-- An environment in which the operator presses Ctrl-C during every bounded
call. -/
def ctrlCEnv : String → String × String → RunBehavior :=
  fun _ _ => ⟨1, ⟨10, 5, 20⟩, 6, true, none⟩

instance instDecidableEqExceptHarness [DecidableEq ε] [DecidableEq α] :
    DecidableEq (Except ε α) := fun x y =>
  match x, y with
  | Except.ok a, Except.ok b =>
      if h : a = b then isTrue (by rw [h])
      else isFalse (by intro hc; cases hc; exact h rfl)
  | Except.error a, Except.error b =>
      if h : a = b then isTrue (by rw [h])
      else isFalse (by intro hc; cases hc; exact h rfl)
  | Except.ok _, Except.error _ => isFalse (by intro hc; cases hc)
  | Except.error _, Except.ok _ => isFalse (by intro hc; cases hc)

/-- The records a fault-free batch appends: one per attempted tuple, problems
outer, searches inner, each determined by that tuple and its own behavior
alone. -/
def expected_results (env : String → String × String → RunBehavior)
    (problems : List String) (searches : List (String × String)) : List RunResult :=
  problems.flatMap (fun p => searches.map (fun s => recordOf p s.1 (env p s)))

/-- The (problem name, search name) tuples the nested loop attempts, problems
outer, searches inner. -/
def batch_tuples (problems : List String) (searches : List (String × String)) :
    List (String × String) :=
  problems.flatMap (fun p => searches.map (fun s => (p, s.1)))

lemma timerRun_pending_false (b : RunBehavior) : (timerRun b).2.2 = false := by
  simp [timerRun]

lemma recordOf_problem (p s : String) (b : RunBehavior) : (recordOf p s b).problem = p := by
  unfold recordOf
  split <;> rfl

lemma recordOf_search (p s : String) (b : RunBehavior) :
    (recordOf p s b).search_algorithm = s := by
  unfold recordOf
  split <;> rfl

lemma recordOf_unsolved (p s : String) (b : RunBehavior)
    (h : (recordOf p s b).solution_found = false) : recordOf p s b = unsolvedRecord p s := by
  unfold recordOf at h ⊢
  split at h
  · exact absurd h (by simp [RunResult.solution_found])
  · rfl

lemma runStep_ok (p s : String) (b : RunBehavior) (rs : List RunResult)
    (h : b.raises = none) :
    runStep p s b ⟨rs, false⟩ = Except.ok ⟨rs ++ [recordOf p s b], false⟩ := by
  rcases b with ⟨t, c, sl, op, rz⟩
  cases h
  cases op <;>
    by_cases ht : TIME_LIMIT < t <;>
      simp [runStep, timerRun, run_search, add_results, recordOf, outcomeOf,
            unsolvedRecord, ht, Nat.not_lt.mp]

lemma exceptBind_ok (x : α) (f : α → Except ε β) :
    (Except.ok x : Except ε α) >>= f = f x := rfl

lemma innerLoop_ok (env : String → String × String → RunBehavior) (p : String) :
    ∀ (searches : List (String × String)) (rs : List RunResult),
      (∀ s ∈ searches, (env p s).raises = none) →
      innerLoop env p searches ⟨rs, false⟩ =
        Except.ok ⟨rs ++ searches.map (fun s => recordOf p s.1 (env p s)), false⟩ := by
  intro searches
  induction searches with
  | nil => intro rs _; simp [innerLoop]
  | cons s rest ih =>
      intro rs h
      have hs : (env p s).raises = none := h s (by simp)
      have hrest : ∀ s2 ∈ rest, (env p s2).raises = none :=
        fun s2 hmem => h s2 (by simp [hmem])
      rw [innerLoop]
      rw [show (s :: rest).map (fun s => recordOf p s.1 (env p s)) =
            recordOf p s.1 (env p s) :: rest.map (fun s => recordOf p s.1 (env p s))
          from rfl]
      simp only [runStep_ok p s.1 (env p s) rs hs, exceptBind_ok]
      rw [ih (rs ++ [recordOf p s.1 (env p s)]) hrest]
      simp

lemma batchLoop_ok (env : String → String × String → RunBehavior)
    (searches : List (String × String)) :
    ∀ (problems : List String) (rs : List RunResult),
      (∀ p s, (env p s).raises = none) →
      batchLoop env problems searches ⟨rs, false⟩ =
        Except.ok ⟨rs ++ expected_results env problems searches, false⟩ := by
  intro problems
  induction problems with
  | nil => intro rs _; simp [batchLoop, expected_results]
  | cons p rest ih =>
      intro rs h
      rw [batchLoop]
      simp only [innerLoop_ok env p searches rs (fun s _ => h p s), exceptBind_ok]
      rw [ih (rs ++ searches.map (fun s => recordOf p s.1 (env p s))) h]
      simp [expected_results, List.append_assoc]

lemma main_ok (env : String → String × String → RunBehavior)
    (p_choices s_choices : List Int) (problems : List String)
    (searches : List (String × String))
    (hp : selectAll PROBLEMS p_choices = Except.ok problems)
    (hs : selectAll SEARCHES s_choices = Except.ok searches)
    (h : ∀ p s, (env p s).raises = none) :
    main env p_choices s_choices = Except.ok (expected_results env problems searches) := by
  rw [main, hp, hs]
  simp only [exceptBind_ok]
  rw [batchLoop_ok env searches problems [] h]
  rfl

lemma expected_results_tuples (env : String → String × String → RunBehavior)
    (problems : List String) (searches : List (String × String)) :
    (expected_results env problems searches).map
        (fun r => (r.problem, r.search_algorithm)) = batch_tuples problems searches := by
  induction problems with
  | nil => simp [expected_results, batch_tuples]
  | cons p rest ih =>
      simp only [expected_results, batch_tuples, List.flatMap_cons, List.map_append,
        List.map_map] at ih ⊢
      rw [ih]
      congr 1
      apply List.map_congr_left
      intro s _
      simp [Function.comp, recordOf_problem, recordOf_search]

lemma expected_results_length (env : String → String × String → RunBehavior)
    (problems : List String) (searches : List (String × String)) :
    (expected_results env problems searches).length =
      problems.length * searches.length := by
  induction problems with
  | nil => simp [expected_results]
  | cons p rest ih =>
      simp only [expected_results, List.flatMap_cons, List.length_append,
        List.length_map, List.length_cons] at ih ⊢
      rw [ih]
      ring

lemma expected_results_mem (env : String → String × String → RunBehavior)
    (problems : List String) (searches : List (String × String)) (r : RunResult)
    (hr : r ∈ expected_results env problems searches) :
    ∃ p e, r = recordOf p (Prod.fst e) (env p e) := by
  rcases List.mem_flatMap.mp hr with ⟨p, _, hmem⟩
  rcases List.mem_map.mp hmem with ⟨s, _, hrec⟩
  exact ⟨p, s, hrec.symm⟩

lemma exceptBind_error (e : ε) (f : α → Except ε β) :
    (Except.error e : Except ε α) >>= f = Except.error e := rfl

lemma innerLoop_cons (env : String → String × String → RunBehavior) (p : String)
    (s : String × String) (rest : List (String × String)) (st : BatchState) :
    innerLoop env p (s :: rest) st =
      runStep p s.1 (env p s) st >>= fun st1 => innerLoop env p rest st1 := rfl

lemma selectAll_cons (l : List α) (i : Int) (rest : List Int) :
    selectAll l (i :: rest) =
      match pyIndex l (i - 1) with
      | some x => (selectAll l rest) >>= fun xs => Except.ok (x :: xs)
      | none => Except.error "IndexError" := rfl

lemma recordOf_timeout (p s : String) (b : RunBehavior) (h1 : b.raises = none)
    (h2 : b.operatorInterrupt = false) (h3 : TIME_LIMIT < b.ticks) :
    recordOf p s b = unsolvedRecord p s := by
  unfold recordOf outcomeOf timerRun
  simp [h1, h2, h3]

lemma recordOf_solved (p s : String) (b : RunBehavior) (h1 : b.raises = none)
    (h2 : b.operatorInterrupt = false) (h3 : b.ticks ≤ TIME_LIMIT) :
    recordOf p s b =
      ⟨p, s, true, some b.counters.succs, some b.counters.goal_tests,
       some b.counters.states, some b.ticks, some b.solutionLength⟩ := by
  unfold recordOf outcomeOf timerRun
  simp [h1, h2, Nat.not_lt.mpr h3]

lemma runStep_raises (p s : String) (b : RunBehavior) (rs : List RunResult)
    (msg : String) (h1 : b.raises = some msg) (h2 : b.operatorInterrupt = false) :
    runStep p s b ⟨rs, false⟩ = Except.error msg := by
  unfold runStep timerRun run_search
  simp [h1, h2]

lemma runStep_operator (p s : String) (b : RunBehavior) (rs : List RunResult)
    (h : b.operatorInterrupt = true) :
    runStep p s b ⟨rs, false⟩ = Except.ok ⟨rs ++ [unsolvedRecord p s], false⟩ := by
  unfold runStep timerRun run_search add_results unsolvedRecord
  simp [h]

/-- Claim C1: when a bounded run is aborted by the timeout cancellation signal
(the KeyboardInterrupt raised via interrupt_main), run_search appends exactly
one record with solved false and every optional field null, and the batch
continues with the next tuple; any exception other than that cancellation
signal is not caught by run_search, propagates, and no result row is
appended for the in-flight tuple. -/
theorem c1_timeout_recorded_other_exceptions_propagate
    (rs : List RunResult) (p sname hname msg : String)
    (rest : List (String × String)) (env : String → String × String → RunBehavior) :
    run_search rs p sname (SearchOutcome.interrupted InterruptSource.timerSignal) =
      Except.ok (rs ++ [unsolvedRecord p sname]) ∧
    run_search rs p sname (SearchOutcome.raised msg) = Except.error msg ∧
    ((env p (sname, hname)).raises = none →
     (env p (sname, hname)).operatorInterrupt = false →
     TIME_LIMIT < (env p (sname, hname)).ticks →
      innerLoop env p ((sname, hname) :: rest) ⟨rs, false⟩ =
        innerLoop env p rest ⟨rs ++ [unsolvedRecord p sname], false⟩) ∧
    ((env p (sname, hname)).raises = some msg →
     (env p (sname, hname)).operatorInterrupt = false →
      innerLoop env p ((sname, hname) :: rest) ⟨rs, false⟩ = Except.error msg) := by
  refine ⟨rfl, rfl, ?_, ?_⟩
  · intro h1 h2 h3
    rw [innerLoop_cons, runStep_ok p sname (env p (sname, hname)) rs h1,
        exceptBind_ok, recordOf_timeout p sname (env p (sname, hname)) h1 h2 h3]
  · intro h1 h2
    rw [innerLoop_cons, runStep_raises p sname (env p (sname, hname)) rs msg h1 h2,
        exceptBind_error]

/-- Witness for C1 at a concrete timed-out run. -/
theorem c1_witness :
    (timeoutEnv "Air Cargo Problem 1" ("breadth_first_search", "")).raises = none ∧
    TIME_LIMIT < (timeoutEnv "Air Cargo Problem 1" ("breadth_first_search", "")).ticks ∧
    innerLoop timeoutEnv "Air Cargo Problem 1" [("breadth_first_search", "")] ⟨[], false⟩ =
      innerLoop timeoutEnv "Air Cargo Problem 1" []
        ⟨[] ++ [unsolvedRecord "Air Cargo Problem 1" "breadth_first_search"], false⟩ :=
  ⟨rfl, by decide,
   (c1_timeout_recorded_other_exceptions_propagate [] "Air Cargo Problem 1"
      "breadth_first_search" "" "boom" [] timeoutEnv).2.2.1 rfl rfl (by decide)⟩

/-- Claim C2: a cancellation armed for an earlier run never aborts the later
run: no interrupt raised by a timer outlives the run it was armed for; a run
that returns before the deadline has its timer cancelled; and a timed-out
run immediately followed by a fast run leaves the fast run with its own
solved, uncorrupted result record. -/
theorem c2_no_cancellation_leak_between_runs
    (env : String → String × String → RunBehavior) (p : String)
    (s1 s2 : String × String) (rest : List (String × String))
    (rs : List RunResult) (b : RunBehavior) :
    (timerRun b).2.2 = false ∧
    (b.raises = none → b.operatorInterrupt = false → b.ticks ≤ TIME_LIMIT →
      (timerRun b).2.1 = TimerFate.cancelledPending) ∧
    ((env p s1).raises = none → (env p s1).operatorInterrupt = false →
     TIME_LIMIT < (env p s1).ticks →
     (env p s2).raises = none → (env p s2).operatorInterrupt = false →
     (env p s2).ticks ≤ TIME_LIMIT →
      innerLoop env p (s1 :: s2 :: rest) ⟨rs, false⟩ =
        innerLoop env p rest
          ⟨rs ++ [unsolvedRecord p s1.1,
                  ⟨p, s2.1, true, some (env p s2).counters.succs,
                   some (env p s2).counters.goal_tests,
                   some (env p s2).counters.states,
                   some (env p s2).ticks, some (env p s2).solutionLength⟩], false⟩) := by
  refine ⟨timerRun_pending_false b, ?_, ?_⟩
  · intro h1 h2 h3
    unfold timerRun
    simp [h1, h2, h3]
  · intro h1 h2 h3 h4 h5 h6
    rw [innerLoop_cons, runStep_ok p s1.1 (env p s1) rs h1, exceptBind_ok,
        innerLoop_cons, runStep_ok p s2.1 (env p s2) _ h4, exceptBind_ok,
        recordOf_timeout p s1.1 (env p s1) h1 h2 h3,
        recordOf_solved p s2.1 (env p s2) h4 h5 h6]
    simp

/-- Witness for C2: breadth_first_search times out, the immediately following
breadth_first_tree_search run completes solved with its own metrics. -/
theorem c2_witness :
    TIME_LIMIT < (mixedEnv "Air Cargo Problem 1" ("breadth_first_search", "")).ticks ∧
    (mixedEnv "Air Cargo Problem 1" ("breadth_first_tree_search", "")).ticks ≤ TIME_LIMIT ∧
    innerLoop mixedEnv "Air Cargo Problem 1"
        [("breadth_first_search", ""), ("breadth_first_tree_search", "")] ⟨[], false⟩ =
      innerLoop mixedEnv "Air Cargo Problem 1" []
        ⟨[] ++ [unsolvedRecord "Air Cargo Problem 1" "breadth_first_search",
            ⟨"Air Cargo Problem 1", "breadth_first_tree_search", true,
             some 10, some 5, some 20, some 1, some 6⟩], false⟩ :=
  ⟨by decide, by decide,
   (c2_no_cancellation_leak_between_runs mixedEnv "Air Cargo Problem 1"
      ("breadth_first_search", "") ("breadth_first_tree_search", "") [] []
      fastBehavior).2.2 rfl rfl (by decide) rfl rfl (by decide)⟩

/-- Claim C3: a batch over N attempted tuples without a fatal fault collects
exactly N records in attempt order, and the single export at batch end
writes one row per record in the same order with the fixed column order
problem, search_algorithm, expansions, goal_tests, new_nodes, elapsed_time,
num_actions, the metric cells of unsolved rows being empty, never zero. -/
theorem c3_collector_length_order_export
    (env : String → String × String → RunBehavior) (p_choices s_choices : List Int)
    (problems : List String) (searches : List (String × String))
    (hp : selectAll PROBLEMS p_choices = Except.ok problems)
    (hs : selectAll SEARCHES s_choices = Except.ok searches)
    (hraise : ∀ p s, (env p s).raises = none) :
    main env p_choices s_choices = Except.ok (expected_results env problems searches) ∧
    (expected_results env problems searches).length =
      problems.length * searches.length ∧
    (expected_results env problems searches).map
        (fun r => (r.problem, r.search_algorithm)) = batch_tuples problems searches ∧
    export_results_to_csv (expected_results env problems searches) =
      (expected_results env problems searches).map
        (fun r => column_order.map (cellOf r)) ∧
    (∀ r ∈ expected_results env problems searches, r.solution_found = false →
      recordRow r = [Cell.str r.problem, Cell.str r.search_algorithm, Cell.empty,
        Cell.empty, Cell.empty, Cell.empty, Cell.empty]) ∧
    Cell.empty ≠ Cell.num 0 := by
  refine ⟨main_ok env p_choices s_choices problems searches hp hs hraise,
    expected_results_length env problems searches,
    expected_results_tuples env problems searches, rfl, ?_, by decide⟩
  intro r hr hfail
  obtain ⟨p, e, rfl⟩ := expected_results_mem env problems searches r hr
  rw [recordOf_unsolved p e.1 (env p e) hfail]
  rfl

/-- Witness for C3 at the concrete batch of problem 1 against searches 1
and 3, every run solving. -/
theorem c3_witness :
    selectAll PROBLEMS [(1 : Int)] = Except.ok ["Air Cargo Problem 1"] ∧
    selectAll SEARCHES [(1 : Int), 3] =
      Except.ok [("breadth_first_search", ""), ("depth_first_graph_search", "")] ∧
    main constEnv [1] [1, 3] =
      Except.ok (expected_results constEnv ["Air Cargo Problem 1"]
        [("breadth_first_search", ""), ("depth_first_graph_search", "")]) :=
  ⟨rfl, rfl,
   (c3_collector_length_order_export constEnv [1] [1, 3] ["Air Cargo Problem 1"]
      [("breadth_first_search", ""), ("depth_first_graph_search", "")]
      rfl rfl (fun _ _ => rfl)).1⟩

/-- Claim C4 counterexample: for the registry strategy with heuristic name
h_1, the heuristic callable is resolved on the undecorated factory instance
(_p), not on the instrumented wrapper built later inside run_search. -/
theorem c4_counterexample :
    SEARCHES.get? 5 = some ("recursive_best_first_search", "h_1") ∧
    (resolve_h "h_1").map HeuristicRef.boundTo = some InstanceTag.rawInstance ∧
    ¬ (resolve_h "h_1").map HeuristicRef.boundTo = some InstanceTag.wrappedInstance := by
  decide

/-- Claim C4 (amended): for every registry strategy with a non-empty
heuristic_name, the heuristic callable is resolved as an attribute of the
undecorated problem instance produced by the factory, before the
instrumented wrapper exists; when heuristic_name is empty no heuristic
argument is passed. -/
theorem c4_heuristic_resolved_on_raw_instance
    (s : String × String) (_hmem : s ∈ SEARCHES) :
    (s.2 ≠ "" → resolve_h s.2 = some ⟨InstanceTag.rawInstance, s.2⟩) ∧
    (s.2 = "" → resolve_h s.2 = none) := by
  constructor <;> intro h <;> simp [resolve_h, h]

/-- Witness for C4 at the recursive_best_first_search registry entry. -/
theorem c4_witness :
    ("recursive_best_first_search", "h_1") ∈ SEARCHES ∧
    resolve_h "h_1" = some ⟨InstanceTag.rawInstance, "h_1"⟩ :=
  ⟨by decide,
   (c4_heuristic_resolved_on_raw_instance ("recursive_best_first_search", "h_1")
      (by decide)).1 (by decide)⟩

/-- Claim C5 counterexample: interactive entries are not validated like
direct mode. The direct-mode argparse gate rejects index 0, yet the same
entry in interactive mode reaches main and completes a full run (selecting
the last registry problem); and an entered list with duplicates out of order
is passed through as is, producing three runs where the normalized direct
input would produce two. -/
theorem c5_counterexample :
    argparse_ok PROBLEMS.length [0] = false ∧
    manual_main constEnv [0] [1] =
      Except.ok [⟨"Air Cargo Problem 3", "breadth_first_search", true,
        some 10, some 5, some 20, some 1, some 6⟩] ∧
    sorted_set [2, 1, 1] = [1, 2] ∧
    manual_main constEnv [2, 1, 1] [1] =
      Except.ok [⟨"Air Cargo Problem 2", "breadth_first_search", true,
          some 10, some 5, some 20, some 1, some 6⟩,
        ⟨"Air Cargo Problem 1", "breadth_first_search", true,
          some 10, some 5, some 20, some 1, some 6⟩,
        ⟨"Air Cargo Problem 1", "breadth_first_search", true,
          some 10, some 5, some 20, some 1, some 6⟩] ∧
    manual_main constEnv [2, 1, 1] [1] ≠
      manual_main constEnv (sorted_set [2, 1, 1]) [1] := by
  refine ⟨by decide, rfl, by decide, rfl, by decide⟩

/-- Claim C5 (amended): interactive entries are handed to main entirely
unvalidated: manual performs no deduplication, no sorting and no range
check; an entry of 0 behaves exactly like the last valid index (Python
negative indexing after the 1-subtraction); an entry beyond the registry
length raises IndexError while the selection lists are being built, before
any run starts, so no result row is produced for such a selection. -/
theorem c5_interactive_input_unvalidated
    (env : String → String × String → RunBehavior) (p s : List Int) :
    manual_main env p s = main env p s ∧
    manual_main env ((0 : Int) :: p) s = main env ((3 : Int) :: p) s ∧
    manual_main env ((4 : Int) :: p) s = Except.error "IndexError" := by
  refine ⟨rfl, ?_, ?_⟩
  · have hsel : selectAll PROBLEMS ((0 : Int) :: p) =
        selectAll PROBLEMS ((3 : Int) :: p) := by
      rw [selectAll_cons, selectAll_cons,
          show pyIndex PROBLEMS ((0 : Int) - 1) = some "Air Cargo Problem 3" from rfl,
          show pyIndex PROBLEMS ((3 : Int) - 1) = some "Air Cargo Problem 3" from rfl]
    unfold manual_main main
    rw [hsel]
  · have hsel : selectAll PROBLEMS ((4 : Int) :: p) = Except.error "IndexError" := by
      rw [selectAll_cons,
          show pyIndex PROBLEMS ((4 : Int) - 1) = none from rfl]
    unfold manual_main main
    rw [hsel]
    rfl

/-- Claim C6 counterexample: with one tick of wrapper-construction overhead
and a five-tick search, run_search records six elapsed ticks, not five: the
measurement starts before the wrapper is constructed and is not independent
of wrapper overhead. -/
theorem c6_counterexample :
    run_search_elapsed ⟨1, 0, 5, 0⟩ 0 = 6 ∧
    (RunCosts.mk 1 0 5 0).searchTicks = 5 ∧
    run_search_elapsed ⟨1, 0, 5, 0⟩ 0 ≠ (RunCosts.mk 1 0 5 0).searchTicks ∧
    run_search_elapsed ⟨1, 0, 5, 0⟩ 0 ≠ run_search_elapsed ⟨0, 0, 5, 0⟩ 0 := by
  decide

/-- Claim C6 (amended): the recorded elapsed time is measured from the entry
of run_search, before the instrumented wrapper and the timer are
constructed, to after the finally clause cancels the timer; it therefore
equals wrapper construction plus timer setup plus search plus cancellation
ticks, an upper bound on (not an exact measure of) the search time, and it
does include wrapper overhead. -/
theorem c6_elapsed_includes_wrapper_overhead (c : RunCosts) (clock0 : Nat) :
    run_search_elapsed c clock0 =
      c.wrapTicks + c.timerSetupTicks + c.searchTicks + c.cancelTicks ∧
    c.searchTicks ≤ run_search_elapsed c clock0 := by
  unfold run_search_elapsed runTimeline
  dsimp
  omega

/-- Claim C7 counterexample: two distinct process invocations, one starting
half a second after the other within the same whole second, produce the
same output file name, so repeated invocations can collide and overwrite. -/
theorem c7_counterexample :
    (100000 : Nat) ≠ 100500 ∧ export_filename 100000 = export_filename 100500 :=
  ⟨by decide, rfl⟩

/-- Claim C7 (amended): the exported file is named
cargo_planning_search_metrics_ followed by the unix timestamp and .csv, with
the timestamp captured once at process start and floored to whole seconds;
the name is a function of that floor second only, so two invocations whose
start times fall within the same whole second produce the same name and
overwrite each other, and names can differ only across different whole
seconds. -/
theorem c7_filename_determined_by_floor_second (r1 r2 : Nat)
    (h : r1 / 1000 = r2 / 1000) : export_filename r1 = export_filename r2 := by
  unfold export_filename
  rw [h]

/-- Witness for C7 at two start times inside the same second. -/
theorem c7_witness :
    (100000 : Nat) / 1000 = 100500 / 1000 ∧
    export_filename 100000 = export_filename 100500 :=
  ⟨by decide, c7_filename_determined_by_floor_second 100000 100500 (by decide)⟩

/-- Claim C8: direct-mode index lists are deduplicated and sorted ascending
before use (the result is sorted, duplicate-free and has the same members),
and the batch attempts exactly the Cartesian product with problems outer and
searches inner: problems 1 with searches 1 and 3 yield exactly two runs, in
the order (problem1, search1), (problem1, search3), also when the search
list is supplied unsorted with duplicates. -/
theorem c8_direct_mode_normalization_and_product (xs : List Int) :
    List.Sorted (fun a b => a ≤ b) (sorted_set xs) ∧
    (sorted_set xs).Nodup ∧
    (∀ a : Int, a ∈ sorted_set xs ↔ a ∈ xs) ∧
    sorted_set [3, 1, 1] = [1, 3] ∧
    direct_invoke constEnv [1] [3, 1, 1] =
      Except.ok [⟨"Air Cargo Problem 1", "breadth_first_search", true,
          some 10, some 5, some 20, some 1, some 6⟩,
        ⟨"Air Cargo Problem 1", "depth_first_graph_search", true,
          some 10, some 5, some 20, some 1, some 6⟩] := by
  refine ⟨?_, ?_, ?_, by decide, rfl⟩
  · exact List.sorted_insertionSort _ _
  · exact ((List.perm_insertionSort _ _).nodup_iff).mpr (List.nodup_dedup xs)
  · intro a
    exact (List.perm_insertionSort _ _).mem_iff.trans (List.mem_dedup)

/-- Claim C9: an interactive entry of 0 is not rejected: after the
1-subtraction, Python negative indexing silently selects the last registry
entry (and further negative results select from the end), and the batch
runs with that entry. -/
theorem c9_zero_index_selects_last_entry :
    selectAll PROBLEMS [(0 : Int)] = Except.ok ["Air Cargo Problem 3"] ∧
    selectAll PROBLEMS [(-1 : Int)] = Except.ok ["Air Cargo Problem 2"] ∧
    selectAll SEARCHES [(0 : Int)] = Except.ok [("astar_search", "h_pg_levelsum")] ∧
    main constEnv [0] [1] =
      Except.ok [⟨"Air Cargo Problem 3", "breadth_first_search", true,
        some 10, some 5, some 20, some 1, some 6⟩] :=
  ⟨rfl, rfl, rfl, rfl⟩

/-- Claim C10: every KeyboardInterrupt raised while the bounded call is in
progress, whether from the timeout timer or from the operator at the
keyboard, is caught by run_search and recorded as an unsolved row that is
indistinguishable from a timeout row, and the batch continues with the next
tuple. -/
theorem c10_operator_interrupt_caught_like_timeout
    (rs : List RunResult) (p sname hname : String)
    (rest : List (String × String)) (env : String → String × String → RunBehavior) :
    (∀ src : InterruptSource,
      run_search rs p sname (SearchOutcome.interrupted src) =
        Except.ok (rs ++ [unsolvedRecord p sname])) ∧
    run_search rs p sname (SearchOutcome.interrupted InterruptSource.operatorSignal) =
      run_search rs p sname (SearchOutcome.interrupted InterruptSource.timerSignal) ∧
    ((env p (sname, hname)).operatorInterrupt = true →
      innerLoop env p ((sname, hname) :: rest) ⟨rs, false⟩ =
        innerLoop env p rest ⟨rs ++ [unsolvedRecord p sname], false⟩) := by
  refine ⟨fun src => rfl, rfl, ?_⟩
  intro h
  rw [innerLoop_cons, runStep_operator p sname (env p (sname, hname)) rs h,
      exceptBind_ok]

/-- Witness for C10 at a concrete operator Ctrl-C during the first run. -/
theorem c10_witness :
    (ctrlCEnv "Air Cargo Problem 1" ("breadth_first_search", "")).operatorInterrupt = true ∧
    innerLoop ctrlCEnv "Air Cargo Problem 1" [("breadth_first_search", "")] ⟨[], false⟩ =
      innerLoop ctrlCEnv "Air Cargo Problem 1" []
        ⟨[] ++ [unsolvedRecord "Air Cargo Problem 1" "breadth_first_search"], false⟩ :=
  ⟨rfl,
   (c10_operator_interrupt_caught_like_timeout [] "Air Cargo Problem 1"
      "breadth_first_search" "" [] ctrlCEnv).2.2 rfl⟩

end RunMetrics
